import Mathlib

/-!
Shallow embedding of `node_manager_daemon_fkie/settings.py` (class `Settings`).

The configuration tree `self._cfg` is a nested structure of Python dicts and
scalars (numbers, booleans, strings, None).  We model it as the inductive
`Node`: a `leaf` holds a scalar, a `dict` holds an association list of
string keys to nodes.  Python dict keys are unique; theorems that depend on
this carry an explicit `distinctKeys`/`nodupL` hypothesis.  Numbers are
modelled as rationals, since the code only stores and compares them.

Stateful methods of `Settings` act on `SState` (configuration tree, reload
listeners, the log of listener invocations, and the log of trees written to
the backing file).  Filesystem and YAML effects are passed in as explicit
outcome parameters (`Except` values / failure flags).
-/

/-- Python scalar values occurring in the configuration: str, float/int, bool, None. -/
inductive Scalar where
  | str : String → Scalar
  | num : Rat → Scalar
  | bool : Bool → Scalar
  | null : Scalar
deriving DecidableEq, Repr

/-- A configuration tree node: a bare scalar or a Python dict. -/
inductive Node where
  | leaf : Scalar → Node
  | dict : List (String × Node) → Node
deriving Repr

mutual

/-- Decidable equality for `Node`, by mutual recursion with entry lists. -/
def Node.decEq : (a b : Node) → Decidable (a = b)
  | .leaf x, .leaf y =>
    match decide (x = y), of_decide_eq_true (p := x = y), of_decide_eq_false (p := x = y) with
    | true, ht, _ => isTrue (by rw [ht rfl])
    | false, _, hf => isFalse (fun hh => hf rfl (Node.leaf.inj hh))
  | .leaf _, .dict _ => isFalse (fun h => Node.noConfusion h)
  | .dict _, .leaf _ => isFalse (fun h => Node.noConfusion h)
  | .dict a, .dict b =>
    match Node.decEqL a b with
    | isTrue h => isTrue (by rw [h])
    | isFalse h => isFalse (fun hh => h (Node.dict.inj hh))

/-- Decidable equality for entry lists of `Node`. -/
def Node.decEqL : (a b : List (String × Node)) → Decidable (a = b)
  | [], [] => isTrue rfl
  | [], _ :: _ => isFalse (fun h => List.noConfusion h)
  | _ :: _, [] => isFalse (fun h => List.noConfusion h)
  | (k, v) :: xs, (l, w) :: ys =>
    match String.decEq k l, Node.decEq v w, Node.decEqL xs ys with
    | isTrue h1, isTrue h2, isTrue h3 => isTrue (by rw [h1, h2, h3])
    | isFalse h1, _, _ => isFalse (fun hh => h1 (congrArg Prod.fst (List.cons.inj hh).1))
    | _, isFalse h2, _ => isFalse (fun hh => h2 (congrArg Prod.snd (List.cons.inj hh).1))
    | _, _, isFalse h3 => isFalse (fun hh => h3 (List.cons.inj hh).2)

end

instance : DecidableEq Node := Node.decEq

/-- Python `d[key]` on a dict, as first-match lookup in the entry list. -/
def dlookup : List (String × Node) → String → Option Node
  | [], _ => none
  | (k, v) :: rest, key => if k = key then some v else dlookup rest key

/-- Python `d[key] = v`: replace the value at `key` in place, or append a new entry. -/
def dinsert : List (String × Node) → String → Node → List (String × Node)
  | [], key, v => [(key, v)]
  | (k, w) :: rest, key, v =>
    if k = key then (k, v) :: rest else (k, w) :: dinsert rest key v

/-- All keys of the entry list are distinct (first level only), as for a Python dict. -/
def distinctKeys : List (String × Node) → Bool
  | [] => true
  | (k, _) :: rest => !(dlookup rest k).isSome && distinctKeys rest

mutual

/-- Keys are distinct at every dict level of the tree. -/
def nodupN : Node → Bool
  | .leaf _ => true
  | .dict m => nodupL m

/-- Keys are distinct at every dict level of every entry of the list. -/
def nodupL : List (String × Node) → Bool
  | [] => true
  | (k, v) :: rest => !(dlookup rest k).isSome && nodupN v && nodupL rest

end

/-- Python truthiness of a configuration value, as used by `if do_reset:` and
by the call sites of `_is_writable`. -/
def nodeTruthy : Node → Bool
  | .leaf (.str s) => !(s == "")
  | .leaf (.num q) => !(q == 0)
  | .leaf (.bool b) => b
  | .leaf .null => false
  | .dict m => !m.isEmpty

/-- `Settings._is_writable` (settings.py lines 223-226): returns `value[:ro]`
itself when the marker is present (truthiness applied at the call sites),
else True.  Note that a value whose `:ro` marker is `True` counts as
writable under this definition. -/
def isWritable (m : List (String × Node)) : Bool :=
  match dlookup m ":ro" with
  | some v => nodeTruthy v
  | none => true

/-- The metadata marker keys skipped by `_apply_recursive` (line 210).
`:value` is deliberately absent from this list. -/
def markers : List String := [":hint", ":default", ":ro", ":min", ":max"]

/-- `Settings._apply_recursive(new_data, curr_value)` (lines 203-221).
The loop iterates the current dict; per entry:
dict values recurse when `_is_writable`, and are dropped otherwise;
marker keys copy the old value; other keys take `new_data[key]` when
`new_data` is a dict holding the key, `new_data` itself when `new_data`
is no dict, and fall back to the old value when the lookup raises. -/
def applyRec (nd : Node) : List (String × Node) → List (String × Node)
  | [] => []
  | (k, v) :: rest =>
    let tail := applyRec nd rest
    match v with
    | .dict d =>
      if isWritable d then
        match nd with
        | .dict m =>
          match dlookup m k with
          | some sub => (k, Node.dict (applyRec sub d)) :: tail
          | none => (k, v) :: tail
        | _ => (k, v) :: tail
      else tail
    | _ =>
      if markers.contains k then (k, v) :: tail
      else
        match nd with
        | .dict m =>
          match dlookup m k with
          | some x => (k, x) :: tail
          | none => (k, v) :: tail
        | _ => (k, nd) :: tail

/-- Python `param_name.split(chr 47)`: split a string at every slash,
keeping empty segments. -/
def splitSlashGo : List Char → List Char → List String
  | [], acc => [String.mk acc.reverse]
  | c :: rest, acc =>
    if c = '/' then String.mk acc.reverse :: splitSlashGo rest []
    else splitSlashGo rest (c :: acc)

/-- Split a parameter name on slashes, as `str.split` does in the source. -/
def splitSlash (s : String) : List String := splitSlashGo s.data []

/-- The descend loop of `Settings.param` (lines 116-119): `value = value[item]`
for each path segment; any KeyError or TypeError aborts the walk. -/
def paramWalk : Node → List String → Option Node
  | v, [] => some v
  | .dict m, item :: rest =>
    match dlookup m item with
    | some v => paramWalk v rest
    | none => none
  | .leaf _, _ :: _ => none

/-- `Settings.param(param_name, default_value)` with `extract_value=True`
(lines 104-130): walk the path; on a dict holding `:value` return that
entry, on another dict return the dict, on a scalar return it; return the
default when the walk raised. -/
def paramValue (cfg : Node) (name : String) (dft : Node) : Node :=
  match paramWalk cfg (splitSlash name) with
  | some (.dict m) =>
    match dlookup m ":value" with
    | some v => v
    | none => .dict m
  | some v => v
  | none => dft

/-- The final step of `Settings.set_param` (lines 143-154): at the parent
dict, an existing dict entry has its `:value` updated when `_is_writable`,
raises the read-only error otherwise; an existing scalar entry is replaced;
a missing entry becomes a fresh dict holding only `:value`. -/
def setFinal (cfg : Node) (pname : String) (fullname : String) (v : Node) : Except String Node :=
  match cfg with
  | .dict m =>
    match dlookup m pname with
    | some (.dict d) =>
      if isWritable d then .ok (.dict (dinsert m pname (.dict (dinsert d ":value" v))))
      else .error (fullname ++ " is a read only parameter!")
    | some _ => .ok (.dict (dinsert m pname v))
    | none => .ok (.dict (dinsert m pname (Node.dict [(":value", v)])))
  | .leaf _ => .error "TypeError"

/-- The walk loop of `Settings.set_param` (lines 134-142): descend along the
parent path, skipping empty segments and creating empty dicts for missing
ones; descending into a scalar raises TypeError. -/
def setWalk (cfg : Node) : List String → String → String → Node → Except String Node
  | [], pname, fullname, v => setFinal cfg pname fullname v
  | item :: rest, pname, fullname, v =>
    if item = "" then setWalk cfg rest pname fullname v
    else
      match cfg with
      | .dict m =>
        match dlookup m item with
        | some child =>
          match setWalk child rest pname fullname v with
          | .ok child2 => .ok (.dict (dinsert m item child2))
          | .error e => .error e
        | none =>
          match setWalk (.dict []) rest pname fullname v with
          | .ok child2 => .ok (.dict (dinsert m item child2))
          | .error e => .error e
      | .leaf _ => .error "TypeError"

/-- `Settings.set_param(param_name, value)` on the tree alone (lines 132-157):
the blanket `except` prints any exception, so the result is the new tree on
success and the unchanged tree plus the printed diagnostic on failure;
nothing is ever raised to the caller of `set_param`. -/
def setParam (cfg : Node) (name : String) (v : Node) : Node × Option String :=
  let segs := splitSlash name
  match setWalk cfg segs.dropLast (segs.getLastD "") name v with
  | .ok cfg2 => (cfg2, none)
  | .error e => (cfg, some e)

/-- The entries of `Settings.default()` (lines 66-102), parametrised by the
instance fields `self.version`, `self.filename` and the module constant
LOG_PATH that appear in it. -/
def defaultEntries (version filename logPath : String) : List (String × Node) :=
  [("global", .dict [
      ("version", .dict [(":value", .leaf (.str version)), (":ro", .leaf (.bool true))]),
      ("file", .dict [(":value", .leaf (.str filename)), (":ro", .leaf (.bool true))]),
      ("grpc_timeout", .dict [(":value", .leaf (.num 15)), (":min", .leaf (.num 0)),
        (":default", .leaf (.num 15)),
        (":hint", .leaf (.str "timeout for connection to remote gRPC-server"))]),
      ("only_diagnostics_agg", .leaf (.bool false)),
      ("reset", .leaf (.bool false))]),
   ("sysmon", .dict [
      ("CPU", .dict [("load_warn_level", .leaf (.num (mkRat 9 10)))]),
      ("Disk", .dict [
        ("usage_warn_level", .dict [(":value", .leaf (.num 100)), (":default", .leaf (.num 100)),
          (":hint", .leaf (.str "values in MB"))]),
        ("path", .leaf (.str logPath))]),
      ("Memory", .dict [
        ("usage_warn_level", .dict [(":value", .leaf (.num 100)), (":default", .leaf (.num 100)),
          (":hint", .leaf (.str "values in MB"))])]),
      ("Network", .dict [
        ("load_warn_level", .dict [(":value", .leaf (.num (mkRat 9 10))), (":default", .leaf (.num (mkRat 9 10))),
          (":hint", .leaf (.str "Percent of the maximum speed"))]),
        ("speed", .dict [(":value", .leaf (.num 6)), (":default", .leaf (.num 6)),
          (":hint", .leaf (.str "Maximal speed in MBit"))]),
        ("interface", .leaf (.str ""))])])]

/-- `Settings.default()` as a tree. -/
def defaultTree (version filename logPath : String) : Node :=
  Node.dict (defaultEntries version filename logPath)

/-- Outcome of the body of `Settings.save` that does not escape: either the
file was written, or `yaml.dump` raised a YAMLError which was caught and
logged (lines 180-181). -/
inductive SaveResult where
  | written
  | yamlErrorLogged
deriving DecidableEq, Repr

/-- `Settings.save` (lines 175-181) with the three fallible effects made
explicit: `open` (line 176, outside the try block), `yaml.dump` and
`stream.write` (line 178, inside a try that catches only `yaml.YAMLError`).
An IOError from open or write escapes to the caller of save. -/
def saveRun (openFails dumpFails writeFails : Bool) : Except String SaveResult :=
  if openFails then .error "IOError: open failed"
  else if dumpFails then .ok .yamlErrorLogged
  else if writeFails then .error "IOError: write failed"
  else .ok .written

/-- The mutable state of a `Settings` object: the configuration tree, the
ordered reload listeners (identified by numbers), the log of listener
invocations, the log of trees written to the backing file, and the
constructor fields used by `default()`. -/
structure SState where
  cfg : Node
  listeners : List Nat
  callLog : List Nat
  saved : List Node
  version : String
  filename : String
  logPath : String
deriving DecidableEq, Repr

/-- `Settings.add_reload_listener(callback, call=True)` (lines 228-238):
append the callback unless already present; when `call` and it was
appended, invoke it once (recorded in the invocation log). -/
def addReloadListener (cb : Nat) (call : Bool) (s : SState) : SState :=
  if cb ∈ s.listeners then s
  else
    let s2 := { s with listeners := s.listeners ++ [cb] }
    if call then { s2 with callLog := s2.callLog ++ [cb] } else s2

/-- `Settings._notify_reload_callbacks` (lines 240-243): invoke every
listener in subscription order. -/
def notifyAll (s : SState) : SState :=
  { s with callLog := s.callLog ++ s.listeners }

/-- `Settings.apply(data)` (lines 186-201): merge the parsed payload into
the tree, replace the result by `default()` when the merged
`global/reset` parameter is truthy, then save and notify.  The second
component is the exception escaping `apply`, if any: `apply` has no
handler, so a failing `self._cfg.items()` (non-dict tree) or a failing
`save` propagates to its caller; in the latter case the new tree is
already installed and the listeners are not notified. -/
def applyState (payload : Node) (saveOutcome : Except String SaveResult) (s : SState) :
    SState × Option String :=
  match s.cfg with
  | .dict m =>
    let merged := Node.dict (applyRec payload m)
    let doReset := nodeTruthy (paramValue merged "global/reset" (Node.leaf (Scalar.bool false)))
    let cfgNew := if doReset then defaultTree s.version s.filename s.logPath else merged
    let s2 := { s with cfg := cfgNew }
    match saveOutcome with
    | .ok SaveResult.written =>
      ({ s2 with saved := s2.saved ++ [cfgNew], callLog := s2.callLog ++ s2.listeners }, none)
    | .ok SaveResult.yamlErrorLogged =>
      ({ s2 with callLog := s2.callLog ++ s2.listeners }, none)
    | .error e => (s2, some e)
  | .leaf _ => (s, some "AttributeError")

/-- `Settings.reload` (lines 159-173): install the parse result as the tree
on success, whatever it is; fall back to `default()` only when the load
raised a `yaml.YAMLError` or an `IOError`; notify the listeners in both
cases. -/
def reloadState (loadOutcome : Except String Node) (s : SState) : SState :=
  match loadOutcome with
  | .ok tree => { s with cfg := tree, callLog := s.callLog ++ s.listeners }
  | .error _ =>
    { s with cfg := defaultTree s.version s.filename s.logPath,
             callLog := s.callLog ++ s.listeners }

/-- `Settings.set_param` at the state level.  The mutation and the `save`
call both sit inside the blanket `try` (lines 133-157), so the second
component is the diagnostic printed there; nothing escapes `set_param`.
When the mutation succeeded but save failed, the new tree is kept. -/
def setParamState (name : String) (v : Node) (saveOutcome : Except String SaveResult)
    (s : SState) : SState × Option String :=
  match setParam s.cfg name v with
  | (cfg2, none) =>
    match saveOutcome with
    | .ok SaveResult.written => ({ s with cfg := cfg2, saved := s.saved ++ [cfg2] }, none)
    | .ok SaveResult.yamlErrorLogged => ({ s with cfg := cfg2 }, none)
    | .error e => ({ s with cfg := cfg2 }, some e)
  | (_, some e) => (s, some e)

mutual

/-- Every dict value reachable in the node satisfies `isWritable`. -/
def allWritableN : Node → Bool
  | .leaf _ => true
  | .dict m => isWritable m && allWritableL m

/-- Every dict value reachable in the entries satisfies `isWritable`. -/
def allWritableL : List (String × Node) → Bool
  | [] => true
  | (_, v) :: rest => allWritableN v && allWritableL rest

end

/-- Writability of a merged value as `_apply_recursive` consults it: dict
values go through `_is_writable`, scalars are always processed. -/
def writableVal : Node → Bool
  | .dict d => isWritable d
  | .leaf _ => true

/-- A concrete tree holding one leaf whose `:ro` marker is True. -/
def roTree : Node :=
  Node.dict [("global", Node.dict [("version",
    Node.dict [(":value", Node.leaf (Scalar.str "v1")), (":ro", Node.leaf (Scalar.bool true))])])]

/-- A concrete tree whose global/reset parameter is True. -/
def resetTree : Node :=
  Node.dict [("global", Node.dict [("reset", Node.leaf (Scalar.bool true))])]

/-- The scenario E payload: only global/grpc_timeout is supplied. -/
def payloadE : Node :=
  Node.dict [("global", Node.dict [("grpc_timeout", Node.leaf (Scalar.num 99))])]

/-- A settings state with an empty configuration dict and no listeners. -/
def emptyState : SState :=
  ⟨Node.dict [], [], [], [], "", "", ""⟩

/-! Inversion lemmas for the boolean tree predicates. -/

theorem dlookup_none_of_isSome_false (l : List (String × Node)) (k : String)
    (h : (dlookup l k).isSome = false) : dlookup l k = none := by
  cases hx : dlookup l k with
  | none => rfl
  | some v => rw [hx] at h; simp at h

theorem distinctKeys_cons (k : String) (v : Node) (rest : List (String × Node))
    (h : distinctKeys ((k, v) :: rest) = true) :
    dlookup rest k = none ∧ distinctKeys rest = true := by
  have h2 : (!(dlookup rest k).isSome && distinctKeys rest) = true := h
  rw [Bool.and_eq_true] at h2
  exact ⟨dlookup_none_of_isSome_false rest k (Bool.not_eq_true' .. ▸ h2.1), h2.2⟩

theorem nodupL_cons (k : String) (v : Node) (rest : List (String × Node))
    (h : nodupL ((k, v) :: rest) = true) :
    dlookup rest k = none ∧ nodupN v = true ∧ nodupL rest = true := by
  have h2 : (!(dlookup rest k).isSome && nodupN v && nodupL rest) = true := h
  rw [Bool.and_eq_true, Bool.and_eq_true] at h2
  exact ⟨dlookup_none_of_isSome_false rest k (Bool.not_eq_true' .. ▸ h2.1.1), h2.1.2, h2.2⟩

theorem allWritableL_cons (k : String) (v : Node) (rest : List (String × Node))
    (h : allWritableL ((k, v) :: rest) = true) :
    allWritableN v = true ∧ allWritableL rest = true := by
  have h2 : (allWritableN v && allWritableL rest) = true := h
  rw [Bool.and_eq_true] at h2
  exact h2

theorem allWritableN_dict (m : List (String × Node)) (h : allWritableN (Node.dict m) = true) :
    isWritable m = true ∧ allWritableL m = true := by
  have h2 : (isWritable m && allWritableL m) = true := h
  rw [Bool.and_eq_true] at h2
  exact h2

theorem nodupN_dict (m : List (String × Node)) (h : nodupN (Node.dict m) = true) :
    nodupL m = true := h

/-! Helper lemmas about the merge recursion. -/

/-- One step of `_apply_recursive`: the head entry either contributes nothing
to the result (it is dropped) or contributes exactly one entry with the same
key, in front of the result for the remaining entries. -/
theorem applyRec_cons_shape (nd : Node) (k : String) (v : Node) (rest : List (String × Node)) :
    applyRec nd ((k, v) :: rest) = applyRec nd rest ∨
    ∃ x, applyRec nd ((k, v) :: rest) = (k, x) :: applyRec nd rest := by
  cases v with
  | dict d =>
    cases hw : isWritable d with
    | false => left; simp [applyRec, hw]
    | true =>
      cases nd with
      | leaf s => right; exact ⟨Node.dict d, by simp [applyRec, hw]⟩
      | dict m =>
        cases hm : dlookup m k with
        | some sub => right; exact ⟨Node.dict (applyRec sub d), by simp [applyRec, hw, hm]⟩
        | none => right; exact ⟨Node.dict d, by simp [applyRec, hw, hm]⟩
  | leaf s =>
    by_cases hk : k ∈ markers
    · right; exact ⟨Node.leaf s, by simp [applyRec, hk]⟩
    · cases nd with
      | leaf t => right; exact ⟨Node.leaf t, by simp [applyRec, hk]⟩
      | dict m =>
        cases hm : dlookup m k with
        | some x => right; exact ⟨x, by simp [applyRec, hk, hm]⟩
        | none => right; exact ⟨Node.leaf s, by simp [applyRec, hk, hm]⟩

/-- A key absent from the current dict is absent from the merge result. -/
theorem applyRec_none_of_none (nd : Node) (k : String) :
    ∀ m : List (String × Node), dlookup m k = none → dlookup (applyRec nd m) k = none := by
  intro m
  induction m with
  | nil => intro _; simp [applyRec, dlookup]
  | cons p rest ih =>
    obtain ⟨k1, v1⟩ := p
    intro h
    have hk : ¬(k1 = k) := by
      intro he
      rw [dlookup, if_pos he] at h
      exact Option.noConfusion h
    have h2 : dlookup rest k = none := by
      rw [dlookup, if_neg hk] at h
      exact h
    rcases applyRec_cons_shape nd k1 v1 rest with hsh | ⟨x, hsh⟩ <;> rw [hsh]
    · exact ih h2
    · rw [dlookup, if_neg hk]
      exact ih h2

/-- A current entry holding a dict that is not `isWritable` is dropped from
the merge result altogether. -/
theorem applyRec_drop_unwritable (nd : Node) (k : String) (d : List (String × Node))
    (hw : isWritable d = false) :
    ∀ m : List (String × Node), distinctKeys m = true →
      dlookup m k = some (Node.dict d) → dlookup (applyRec nd m) k = none := by
  intro m
  induction m with
  | nil => intro _ hl; exact absurd hl (by simp [dlookup])
  | cons p rest ih =>
    obtain ⟨k1, v1⟩ := p
    intro hdk hl
    obtain ⟨hdk1, hdk2⟩ := distinctKeys_cons k1 v1 rest hdk
    by_cases hk : k1 = k
    · subst hk
      have hv : v1 = Node.dict d := by
        rw [dlookup, if_pos rfl] at hl
        exact Option.some.inj hl
      subst hv
      have hstep : applyRec nd ((k1, Node.dict d) :: rest) = applyRec nd rest := by
        simp [applyRec, hw]
      rw [hstep]
      exact applyRec_none_of_none nd k1 rest hdk1
    · have hl2 : dlookup rest k = some (Node.dict d) := by
        rw [dlookup, if_neg hk] at hl
        exact hl
      rcases applyRec_cons_shape nd k1 v1 rest with hsh | ⟨x, hsh⟩ <;> rw [hsh]
      · exact ih hdk2 hl2
      · rw [dlookup, if_neg hk]
        exact ih hdk2 hl2

/-- When the per-key lookup of the incoming data fails, a current entry
keeps its old value in the merge result, as long as it is not one of the two
carve-outs: the value must be writable (a non-writable dict is instead
dropped), and a non-marker scalar entry must be facing a dict payload (a
non-dict payload is taken verbatim there).  The lookup-failure hypothesis
reads: whenever the payload is a dict, it lacks the key; a non-dict payload
fails the lookup by raising TypeError in the source. -/
theorem applyRec_keep_old (nd : Node) (k : String) (v : Node)
    (hwv : writableVal v = true)
    (hfail : ∀ w : List (String × Node), nd = Node.dict w → dlookup w k = none)
    (hkeep : (∃ d, v = Node.dict d) ∨ k ∈ markers ∨ ∃ w, nd = Node.dict w) :
    ∀ m : List (String × Node), distinctKeys m = true → dlookup m k = some v →
      dlookup (applyRec nd m) k = some v := by
  intro m
  induction m with
  | nil => intro _ hl; exact absurd hl (by simp [dlookup])
  | cons p rest ih =>
    obtain ⟨k1, v1⟩ := p
    intro hdk hl
    obtain ⟨hdk1, hdk2⟩ := distinctKeys_cons k1 v1 rest hdk
    by_cases hk : k1 = k
    · subst hk
      have hv : v1 = v := by
        rw [dlookup, if_pos rfl] at hl
        exact Option.some.inj hl
      subst hv
      cases v1 with
      | dict d =>
        have hwd : isWritable d = true := by simpa [writableVal] using hwv
        cases nd with
        | dict w =>
          have hw1 : dlookup w k1 = none := hfail w rfl
          simp [applyRec, hwd, hw1, dlookup]
        | leaf s => simp [applyRec, hwd, dlookup]
      | leaf sc =>
        by_cases hmk : k1 ∈ markers
        · simp [applyRec, hmk, dlookup]
        · rcases hkeep with ⟨d, hd⟩ | hmk2 | ⟨w, hw⟩
          · exact Node.noConfusion hd
          · exact absurd hmk2 hmk
          · subst hw
            have hw1 : dlookup w k1 = none := hfail w rfl
            simp [applyRec, hmk, hw1, dlookup]
    · have hl2 : dlookup rest k = some v := by
        rw [dlookup, if_neg hk] at hl
        exact hl
      rcases applyRec_cons_shape nd k1 v1 rest with hsh | ⟨x, hsh⟩ <;> rw [hsh]
      · exact ih hdk2 hl2
      · rw [dlookup, if_neg hk]
        exact ih hdk2 hl2

theorem nodupL_distinct : ∀ l : List (String × Node), nodupL l = true → distinctKeys l = true := by
  intro l
  induction l with
  | nil => intro _; rfl
  | cons p rest ih =>
    obtain ⟨k, v⟩ := p
    intro h
    obtain ⟨h1, _, h3⟩ := nodupL_cons k v rest h
    have h4 : (!(dlookup rest k).isSome && distinctKeys rest) = true := by
      rw [h1, ih h3]
      rfl
    exact h4

theorem mem_dlookup : ∀ l : List (String × Node), distinctKeys l = true →
    ∀ p : String × Node, p ∈ l → dlookup l p.1 = some p.2 := by
  intro l
  induction l with
  | nil => intro _ p hp; simp at hp
  | cons q rest ih =>
    intro hdk p hp
    obtain ⟨k1, v1⟩ := q
    obtain ⟨hdk1, hdk2⟩ := distinctKeys_cons k1 v1 rest hdk
    rcases List.mem_cons.mp hp with he | hm
    · subst he; simp [dlookup]
    · have hrest := ih hdk2 p hm
      by_cases hk : k1 = p.1
      · exfalso
        rw [← hk] at hrest
        rw [hrest] at hdk1
        exact Option.noConfusion hdk1
      · rw [dlookup, if_neg hk]
        exact hrest

/-- Merging a dict into entries that all occur in it verbatim, with all
reachable dicts writable and keys distinct at every level, reproduces the
entries unchanged. -/
theorem applyRec_keep : ∀ (m curr : List (String × Node)),
    (∀ p : String × Node, p ∈ curr → dlookup m p.1 = some p.2) →
    allWritableL curr = true → nodupL curr = true →
    applyRec (Node.dict m) curr = curr
  | _, [], _, _, _ => rfl
  | m, (k, v) :: rest, hmem, hw, hnd => by
    have hmv : dlookup m k = some v := hmem (k, v) (List.mem_cons_self _ _)
    have hmem2 : ∀ p : String × Node, p ∈ rest → dlookup m p.1 = some p.2 :=
      fun p hp => hmem p (List.mem_cons_of_mem _ hp)
    obtain ⟨hw1, hw2⟩ := allWritableL_cons k v rest hw
    obtain ⟨_, hnd1, hnd2⟩ := nodupL_cons k v rest hnd
    have htail : applyRec (Node.dict m) rest = rest :=
      applyRec_keep m rest hmem2 hw2 hnd2
    cases v with
    | dict d =>
      obtain ⟨hwd1, hwd2⟩ := allWritableN_dict d hw1
      have hndd : nodupL d = true := nodupN_dict d hnd1
      have hin : applyRec (Node.dict d) d = d :=
        applyRec_keep d d (fun p hp => mem_dlookup d (nodupL_distinct d hndd) p hp) hwd2 hndd
      simp [applyRec, hwd1, hmv, hin, htail]
    | leaf s =>
      by_cases hmk : k ∈ markers
      · simp [applyRec, hmk, htail]
      · simp [applyRec, hmk, hmv, htail]
termination_by _ curr => sizeOf curr

/-! Claim theorems. -/

/-- C1: the claim says a set_param on an existing leaf whose metadata marks
it read-only fails with a read-only error and leaves the tree unchanged.
The code does the opposite: `_is_writable` returns the `:ro` flag itself, so
a leaf with `:ro` True is treated as writable; set_param on such a leaf
updates its `:value` and reports no error at all. -/
theorem c1_readonly_set_param_bug :
    setParam roTree "global/version" (Node.leaf (Scalar.str "x"))
      = (Node.dict [("global", Node.dict [("version",
          Node.dict [(":value", Node.leaf (Scalar.str "x")),
                     (":ro", Node.leaf (Scalar.bool true))])])], none) := by
  decide

/-- C2: the claim says a leaf carrying a readonly-true marker is never
changed by merge or set_param.  In the code both operations change it:
set_param overwrites its `:value` (no error), and `_apply_recursive`
recurses into the leaf dict because `_is_writable` returns the truthy
`:ro` flag, replacing `:value` with the incoming data. -/
theorem c2_readonly_leaf_mutated_bug :
    (setParam (Node.dict [("p", Node.dict [(":value", Node.leaf (Scalar.num 1)),
          (":ro", Node.leaf (Scalar.bool true))])]) "p" (Node.leaf (Scalar.num 2))
        = (Node.dict [("p", Node.dict [(":value", Node.leaf (Scalar.num 2)),
            (":ro", Node.leaf (Scalar.bool true))])], none)) ∧
    (applyRec (Node.dict [("p", Node.leaf (Scalar.num 3))])
        [("p", Node.dict [(":value", Node.leaf (Scalar.num 1)),
          (":ro", Node.leaf (Scalar.bool true))])]
      = [("p", Node.dict [(":value", Node.leaf (Scalar.num 3)),
          (":ro", Node.leaf (Scalar.bool true))])]) := by
  decide

/-- Counterexample to C3 as stated: merging into a current tree whose key g
holds a non-writable dict (here with `:ro` False) does not keep the old
group in the result; the whole result is empty, so g is not mapped to the
old group. -/
theorem c3_unwritable_group_dropped_cex :
    applyRec (Node.dict [("g", Node.dict [("x", Node.leaf (Scalar.num 2))])])
      [("g", Node.dict [(":ro", Node.leaf (Scalar.bool false)), ("x", Node.leaf (Scalar.num 1))])]
      = [] := by
  decide

/-- C3 (amended): during merge, a key of the current tree whose value is a
dict that is not writable is omitted from the merge result entirely (its key
is absent), rather than kept unchanged; the merge recurses into a group only
when it is writable. -/
theorem c3_unwritable_group_omitted (nd : Node) (k : String) (d m : List (String × Node))
    (hdk : distinctKeys m = true) (hl : dlookup m k = some (Node.dict d))
    (hw : isWritable d = false) :
    dlookup (applyRec nd m) k = none :=
  applyRec_drop_unwritable nd k d hw m hdk hl

/-- Witness for the amended C3 at a concrete input. -/
theorem c3_witness :
    distinctKeys [("g", Node.dict [(":ro", Node.leaf (Scalar.bool false))])] = true ∧
    dlookup [("g", Node.dict [(":ro", Node.leaf (Scalar.bool false))])] "g"
      = some (Node.dict [(":ro", Node.leaf (Scalar.bool false))]) ∧
    isWritable [(":ro", Node.leaf (Scalar.bool false))] = false ∧
    dlookup (applyRec (Node.dict [])
      [("g", Node.dict [(":ro", Node.leaf (Scalar.bool false))])]) "g" = none :=
  ⟨by decide, by decide, by decide,
    c3_unwritable_group_omitted (Node.dict []) "g" [(":ro", Node.leaf (Scalar.bool false))]
      [("g", Node.dict [(":ro", Node.leaf (Scalar.bool false))])] (by decide) (by decide) (by decide)⟩

/-- C4: whenever the merged tree renders global/reset truthy, apply installs
the built-in default tree instead of the merge result, saves it, notifies
all listeners in order, raises nothing, and the default tree itself carries
reset False. -/
theorem c4_reset_precedence (pl : Node) (s : SState) (m : List (String × Node))
    (ver fn lp : String) (hcfg : s.cfg = Node.dict m)
    (hrs : nodeTruthy (paramValue (Node.dict (applyRec pl m)) "global/reset"
      (Node.leaf (Scalar.bool false))) = true) :
    (applyState pl (Except.ok SaveResult.written) s).1.cfg
      = defaultTree s.version s.filename s.logPath ∧
    (applyState pl (Except.ok SaveResult.written) s).1.saved
      = s.saved ++ [defaultTree s.version s.filename s.logPath] ∧
    (applyState pl (Except.ok SaveResult.written) s).1.callLog = s.callLog ++ s.listeners ∧
    (applyState pl (Except.ok SaveResult.written) s).2 = none ∧
    paramValue (defaultTree ver fn lp) "global/reset" (Node.leaf (Scalar.bool false))
      = Node.leaf (Scalar.bool false) := by
  refine ⟨?_, ?_, ?_, ?_, rfl⟩ <;> simp [applyState, hcfg, hrs]

/-- Witness for C4 at a concrete input. -/
theorem c4_witness :
    (⟨resetTree, [], [], [], "", "", ""⟩ : SState).cfg
      = Node.dict [("global", Node.dict [("reset", Node.leaf (Scalar.bool true))])] ∧
    nodeTruthy (paramValue (Node.dict (applyRec resetTree
        [("global", Node.dict [("reset", Node.leaf (Scalar.bool true))])])) "global/reset"
      (Node.leaf (Scalar.bool false))) = true ∧
    ((applyState resetTree (Except.ok SaveResult.written)
        (⟨resetTree, [], [], [], "", "", ""⟩ : SState)).1.cfg = defaultTree "" "" "" ∧
     (applyState resetTree (Except.ok SaveResult.written)
        (⟨resetTree, [], [], [], "", "", ""⟩ : SState)).1.saved = [] ++ [defaultTree "" "" ""] ∧
     (applyState resetTree (Except.ok SaveResult.written)
        (⟨resetTree, [], [], [], "", "", ""⟩ : SState)).1.callLog = [] ++ [] ∧
     (applyState resetTree (Except.ok SaveResult.written)
        (⟨resetTree, [], [], [], "", "", ""⟩ : SState)).2 = none ∧
     paramValue (defaultTree "a" "b" "c") "global/reset" (Node.leaf (Scalar.bool false))
       = Node.leaf (Scalar.bool false)) :=
  ⟨rfl, by decide,
    c4_reset_precedence resetTree ⟨resetTree, [], [], [], "", "", ""⟩
      [("global", Node.dict [("reset", Node.leaf (Scalar.bool true))])] "a" "b" "c" rfl (by decide)⟩

/-- C5: the merge is driven by the shape of the current tree; a key absent
from the current dict is absent from the merge result, whatever the payload
holds, so merge never introduces new keys. -/
theorem c5_schema_preserving (nd : Node) (m : List (String × Node)) (k : String)
    (h : dlookup m k = none) : dlookup (applyRec nd m) k = none :=
  applyRec_none_of_none nd k m h

/-- Witness for C5 at a concrete input. -/
theorem c5_witness :
    dlookup [("b", Node.leaf (Scalar.num 1))] "a" = none ∧
    dlookup (applyRec (Node.dict [("a", Node.leaf (Scalar.num 2))])
      [("b", Node.leaf (Scalar.num 1))]) "a" = none :=
  ⟨by decide, c5_schema_preserving (Node.dict [("a", Node.leaf (Scalar.num 2))])
    [("b", Node.leaf (Scalar.num 1))] "a" (by decide)⟩

/-- Counterexample to C6 as stated: two keys of the current tree whose
lookup in the incoming data fails and whose old value is not kept.  For a
non-writable group with the key missing from the payload, the result drops
the key entirely; for a bare scalar with a non-dict payload, the result
takes the payload scalar instead of the old value. -/
theorem c6_fallback_cex :
    (applyRec (Node.dict []) [("g", Node.dict [(":ro", Node.leaf (Scalar.bool false)),
        ("x", Node.leaf (Scalar.num 1))])] = []) ∧
    (applyRec (Node.leaf (Scalar.num 5)) [("x", Node.leaf (Scalar.num 1))]
      = [("x", Node.leaf (Scalar.num 5))]) := by
  decide

/-- C6 (amended): for every key of the current tree whose lookup in the
incoming data fails (the incoming data is a dict lacking the key, or is not
a dict at all), the merge result keeps the old value for that key and the
merge of the remaining keys proceeds, with exactly two exceptions: a group
that is not writable is dropped from the result regardless of the incoming
data, and a bare (non-marker) scalar facing a non-dict payload takes the
payload verbatim instead of the old value.  In particular, applying the
scenario E payload, which sets only global/grpc_timeout, to the default
tree changes only the value of that parameter and keeps every other
parameter. -/
theorem c6_lookup_failure_keeps_old (nd : Node) (m : List (String × Node)) (k : String) (v : Node)
    (ver fn lp : String)
    (hdk : distinctKeys m = true) (hl : dlookup m k = some v)
    (hfail : ∀ w : List (String × Node), nd = Node.dict w → dlookup w k = none)
    (hwv : writableVal v = true)
    (hkeep : (∃ d, v = Node.dict d) ∨ k ∈ markers ∨ ∃ w, nd = Node.dict w) :
    dlookup (applyRec nd m) k = some v ∧
    applyRec payloadE (defaultEntries ver fn lp)
      = [("global", Node.dict [
          ("version", Node.dict [(":value", Node.leaf (Scalar.str ver)),
            (":ro", Node.leaf (Scalar.bool true))]),
          ("file", Node.dict [(":value", Node.leaf (Scalar.str fn)),
            (":ro", Node.leaf (Scalar.bool true))]),
          ("grpc_timeout", Node.dict [(":value", Node.leaf (Scalar.num 99)),
            (":min", Node.leaf (Scalar.num 0)),
            (":default", Node.leaf (Scalar.num 15)),
            (":hint", Node.leaf (Scalar.str "timeout for connection to remote gRPC-server"))]),
          ("only_diagnostics_agg", Node.leaf (Scalar.bool false)),
          ("reset", Node.leaf (Scalar.bool false))]),
         ("sysmon", Node.dict [
          ("CPU", Node.dict [("load_warn_level", Node.leaf (Scalar.num (mkRat 9 10)))]),
          ("Disk", Node.dict [
            ("usage_warn_level", Node.dict [(":value", Node.leaf (Scalar.num 100)),
              (":default", Node.leaf (Scalar.num 100)),
              (":hint", Node.leaf (Scalar.str "values in MB"))]),
            ("path", Node.leaf (Scalar.str lp))]),
          ("Memory", Node.dict [
            ("usage_warn_level", Node.dict [(":value", Node.leaf (Scalar.num 100)),
              (":default", Node.leaf (Scalar.num 100)),
              (":hint", Node.leaf (Scalar.str "values in MB"))])]),
          ("Network", Node.dict [
            ("load_warn_level", Node.dict [(":value", Node.leaf (Scalar.num (mkRat 9 10))),
              (":default", Node.leaf (Scalar.num (mkRat 9 10))),
              (":hint", Node.leaf (Scalar.str "Percent of the maximum speed"))]),
            ("speed", Node.dict [(":value", Node.leaf (Scalar.num 6)),
              (":default", Node.leaf (Scalar.num 6)),
              (":hint", Node.leaf (Scalar.str "Maximal speed in MBit"))]),
            ("interface", Node.leaf (Scalar.str ""))])])] :=
  ⟨applyRec_keep_old nd k v hwv hfail hkeep m hdk hl, rfl⟩

/-- Witness for the amended C6 at a concrete input exercising the
type-mismatch fallback: a writable group facing a scalar payload keeps its
old value. -/
theorem c6_witness :
    distinctKeys [("g", Node.dict [("x", Node.leaf (Scalar.num 1))])] = true ∧
    dlookup [("g", Node.dict [("x", Node.leaf (Scalar.num 1))])] "g"
      = some (Node.dict [("x", Node.leaf (Scalar.num 1))]) ∧
    writableVal (Node.dict [("x", Node.leaf (Scalar.num 1))]) = true ∧
    dlookup (applyRec (Node.leaf (Scalar.num 5))
        [("g", Node.dict [("x", Node.leaf (Scalar.num 1))])]) "g"
      = some (Node.dict [("x", Node.leaf (Scalar.num 1))]) :=
  ⟨by decide, by decide, by decide,
   (c6_lookup_failure_keeps_old (Node.leaf (Scalar.num 5))
      [("g", Node.dict [("x", Node.leaf (Scalar.num 1))])] "g"
      (Node.dict [("x", Node.leaf (Scalar.num 1))]) "" "" ""
      (by decide) (by decide) (fun w h => Node.noConfusion h) (by decide)
      (Or.inl ⟨[("x", Node.leaf (Scalar.num 1))], rfl⟩)).1⟩

/-- Counterexample to C7 as stated: save does raise.  An IOError from open
or from write escapes saveRun, and during apply, which calls save with no
handler, a failing save escapes apply as well. -/
theorem c7_save_raises_cex :
    saveRun true false false = Except.error "IOError: open failed" ∧
    saveRun false false true = Except.error "IOError: write failed" ∧
    (applyState (Node.dict []) (Except.error "IOError: write failed") emptyState).2
      = some "IOError: write failed" :=
  ⟨rfl, rfl, rfl⟩

/-- C7 (amended): save swallows only YAML serialization failures, which are
caught and logged; an IOError from opening or writing the file escapes to
the caller of save.  Consequently a persistence failure during apply escapes
apply with the new tree (the merge result, or the default on a truthy
reset) already installed, nothing recorded as written, and the listeners
not notified; set_param instead confines the failure with its blanket
handler: the failure is returned as a printed diagnostic and the mutated
tree stays installed. -/
theorem c7_save_failure_policy (d : Bool) (pl : Node) (e : String) (name : String) (v : Node)
    (s : SState) (m : List (String × Node)) (cfg2 : Node)
    (hcfg : s.cfg = Node.dict m) (hset : setParam s.cfg name v = (cfg2, none)) :
    saveRun false d false
      = Except.ok (if d then SaveResult.yamlErrorLogged else SaveResult.written) ∧
    saveRun true false false = Except.error "IOError: open failed" ∧
    saveRun false false true = Except.error "IOError: write failed" ∧
    (applyState pl (Except.error e) s).2 = some e ∧
    (applyState pl (Except.error e) s).1.cfg
      = (if nodeTruthy (paramValue (Node.dict (applyRec pl m)) "global/reset"
            (Node.leaf (Scalar.bool false)))
         then defaultTree s.version s.filename s.logPath
         else Node.dict (applyRec pl m)) ∧
    (applyState pl (Except.error e) s).1.callLog = s.callLog ∧
    (applyState pl (Except.error e) s).1.saved = s.saved ∧
    setParamState name v (Except.error e) s = ({ s with cfg := cfg2 }, some e) := by
  refine ⟨?_, rfl, rfl, ?_, ?_, ?_, ?_, ?_⟩
  · cases d <;> rfl
  · simp [applyState, hcfg]
  · simp [applyState, hcfg]
  · simp [applyState, hcfg]
  · simp [applyState, hcfg]
  · simp [setParamState, hset]

/-- Witness for the amended C7 at a concrete input. -/
theorem c7_witness :
    emptyState.cfg = Node.dict [] ∧
    setParam emptyState.cfg "p" (Node.leaf (Scalar.num 1))
      = (Node.dict [("p", Node.dict [(":value", Node.leaf (Scalar.num 1))])], none) ∧
    (saveRun false true false = Except.ok SaveResult.yamlErrorLogged ∧
     saveRun true false false = Except.error "IOError: open failed" ∧
     saveRun false false true = Except.error "IOError: write failed" ∧
     (applyState (Node.dict []) (Except.error "boom") emptyState).2 = some "boom" ∧
     (applyState (Node.dict []) (Except.error "boom") emptyState).1.cfg = Node.dict [] ∧
     (applyState (Node.dict []) (Except.error "boom") emptyState).1.callLog = [] ∧
     (applyState (Node.dict []) (Except.error "boom") emptyState).1.saved = [] ∧
     setParamState "p" (Node.leaf (Scalar.num 1)) (Except.error "boom") emptyState
       = (⟨Node.dict [("p", Node.dict [(":value", Node.leaf (Scalar.num 1))])],
           [], [], [], "", "", ""⟩, some "boom")) :=
  ⟨rfl, by decide,
    c7_save_failure_policy true (Node.dict []) "boom" "p" (Node.leaf (Scalar.num 1))
      emptyState [] (Node.dict [("p", Node.dict [(":value", Node.leaf (Scalar.num 1))])])
      rfl (by decide)⟩

/-- Counterexample to C8 as stated: applying a payload equal to the current
tree does not always leave the tree unchanged.  A tree whose global/reset is
True is replaced by the default tree, and a self-merge drops a group whose
`:ro` marker is falsy. -/
theorem c8_idempotence_cex :
    (applyState resetTree (Except.ok SaveResult.written)
        (⟨resetTree, [], [], [], "", "", ""⟩ : SState)).1.cfg ≠ resetTree ∧
    applyRec (Node.dict [("g", Node.dict [(":ro", Node.leaf (Scalar.bool false))])])
      [("g", Node.dict [(":ro", Node.leaf (Scalar.bool false))])] = [] := by
  decide

/-- C8 (amended): applying a payload equal to the current tree leaves the
tree unchanged, provided keys are distinct at every level, every dict in the
tree is writable, and the global/reset parameter of the tree is not truthy;
otherwise non-writable groups are dropped or reset replaces the tree. -/
theorem c8_idempotent_when_writable (s : SState) (m : List (String × Node))
    (hcfg : s.cfg = Node.dict m) (hnd : nodupL m = true) (hwr : allWritableL m = true)
    (hrs : nodeTruthy (paramValue (Node.dict m) "global/reset"
      (Node.leaf (Scalar.bool false))) = false) :
    (applyState (Node.dict m) (Except.ok SaveResult.written) s).1.cfg = s.cfg ∧
    (applyState (Node.dict m) (Except.ok SaveResult.written) s).2 = none := by
  have hself : applyRec (Node.dict m) m = m :=
    applyRec_keep m m (mem_dlookup m (nodupL_distinct m hnd)) hwr hnd
  constructor <;> simp [applyState, hcfg, hself, hrs]

/-- Witness for the amended C8 on the built-in default tree. -/
theorem c8_witness :
    nodupL (defaultEntries "" "" "") = true ∧
    allWritableL (defaultEntries "" "" "") = true ∧
    nodeTruthy (paramValue (Node.dict (defaultEntries "" "" "")) "global/reset"
      (Node.leaf (Scalar.bool false))) = false ∧
    (applyState (Node.dict (defaultEntries "" "" "")) (Except.ok SaveResult.written)
      (⟨defaultTree "" "" "", [], [], [], "", "", ""⟩ : SState)).1.cfg = defaultTree "" "" "" :=
  ⟨by decide, by decide, by decide,
   (c8_idempotent_when_writable ⟨defaultTree "" "" "", [], [], [], "", "", ""⟩
      (defaultEntries "" "" "") rfl (by decide) (by decide) (by decide)).1⟩

/-- C9: registering a fresh listener with immediate invocation appends it to
the listener list and calls it exactly once; registering it again is a
no-op; it occurs exactly once in the listener list; and both apply and
reload notify by invoking the listeners once each, in subscription order. -/
theorem c9_listener_registration (s : SState) (cb : Nat) (pl : Node)
    (m : List (String × Node)) (lo : Except String Node)
    (hni : cb ∉ s.listeners) (hcfg : s.cfg = Node.dict m) :
    (addReloadListener cb true s).listeners = s.listeners ++ [cb] ∧
    (addReloadListener cb true s).callLog = s.callLog ++ [cb] ∧
    addReloadListener cb true (addReloadListener cb true s) = addReloadListener cb true s ∧
    (addReloadListener cb true s).listeners.count cb = 1 ∧
    (applyState pl (Except.ok SaveResult.written) (addReloadListener cb true s)).1.callLog
      = (addReloadListener cb true s).callLog ++ (addReloadListener cb true s).listeners ∧
    (reloadState lo (addReloadListener cb true s)).callLog
      = (addReloadListener cb true s).callLog ++ (addReloadListener cb true s).listeners := by
  have h1 : addReloadListener cb true s
      = { s with listeners := s.listeners ++ [cb], callLog := s.callLog ++ [cb] } := by
    simp [addReloadListener, hni]
  have hmem : cb ∈ (addReloadListener cb true s).listeners := by
    rw [h1]; simp
  have hdup : ∀ t : SState, cb ∈ t.listeners → addReloadListener cb true t = t := by
    intro t ht; simp [addReloadListener, ht]
  have h0 : s.listeners.count cb = 0 := List.count_eq_zero.mpr hni
  refine ⟨by rw [h1], by rw [h1], hdup _ hmem, ?_, ?_, ?_⟩
  · rw [h1]
    simp [List.count_append, h0]
  · have hcfg1 : (addReloadListener cb true s).cfg = Node.dict m := by
      rw [h1]; exact hcfg
    simp [applyState, hcfg1]
  · cases lo <;> rfl

/-- Witness for C9 at a concrete input. -/
theorem c9_witness :
    (0 : Nat) ∉ emptyState.listeners ∧
    ((addReloadListener 0 true emptyState).listeners = [] ++ [0] ∧
     (addReloadListener 0 true emptyState).callLog = [] ++ [0] ∧
     addReloadListener 0 true (addReloadListener 0 true emptyState)
       = addReloadListener 0 true emptyState ∧
     (addReloadListener 0 true emptyState).listeners.count 0 = 1 ∧
     (applyState (Node.dict []) (Except.ok SaveResult.written)
        (addReloadListener 0 true emptyState)).1.callLog
       = (addReloadListener 0 true emptyState).callLog
         ++ (addReloadListener 0 true emptyState).listeners ∧
     (reloadState (Except.ok (Node.dict [])) (addReloadListener 0 true emptyState)).callLog
       = (addReloadListener 0 true emptyState).callLog
         ++ (addReloadListener 0 true emptyState).listeners) :=
  ⟨by decide, c9_listener_registration emptyState 0 (Node.dict []) []
    (Except.ok (Node.dict [])) (by decide) rfl⟩

/-- C10: reload installs a successful parse result as the live tree whatever
it is, including the null value an empty file parses to; the default tree is
substituted only when the load raised a YAML or an I/O error. -/
theorem c10_reload_installs_parse_result (s : SState) (tree : Node) (e : String) :
    (reloadState (Except.ok tree) s).cfg = tree ∧
    (reloadState (Except.ok (Node.leaf Scalar.null)) s).cfg = Node.leaf Scalar.null ∧
    (reloadState (Except.error e) s).cfg = defaultTree s.version s.filename s.logPath :=
  ⟨rfl, rfl, rfl⟩
